import Mathlib

/-!
Shallow embedding of the Flappy Bird game loop
(src/flappybird/components/FlappyBird.tsx) and of the score-persistence
API route (src/flappybird/app/api/scores/route.ts).

JavaScript numbers are modelled as exact rationals; the machine-level
floating point behaviour is not part of any claim checked here.
-/

namespace FlappyBird

/-! Base design constants (FlappyBird.tsx lines 6-19) -/

def BASE_WIDTH : ℚ := 480
def BASE_HEIGHT : ℚ := 640
def BASE_PIPE_WIDTH : ℚ := 70
def BASE_GAP : ℚ := 160
def PIPE_INTERVAL_MS : ℚ := 1400
def BASE_SPEED : ℚ := 7/2
def BASE_GRAVITY : ℚ := 9/20
def BASE_FLAP : ℚ := -17/2
def MAX_LEVEL : ℕ := 8
def SPEED_PER_LEVEL : ℚ := 1/20
def GRAVITY_PER_LEVEL : ℚ := 1/25
def GAP_REDUCTION_PER_LEVEL : ℚ := 1/50
def INTERVAL_REDUCTION_MS_PER_LEVEL : ℚ := 50

/-! Difficulty scaling (loop, lines 289-291, 317-318, 329, 345, 457) -/

-- `Math.min(MAX_LEVEL, Math.floor(scoreRef.current / 10))`; score is a
-- non-negative integer, so `Math.floor(score / 10)` is Nat division.
def level (score : ℕ) : ℕ := min MAX_LEVEL (score / 10)

-- `Math.min(1 + GRAVITY_PER_LEVEL * level, 1.4)` (line 329)
def gravityMul (lvl : ℕ) : ℚ := min (1 + GRAVITY_PER_LEVEL * lvl) (7/5)

-- `Math.min(1 + SPEED_PER_LEVEL * level, 1.6)` (line 345)
def speedMul (lvl : ℕ) : ℚ := min (1 + SPEED_PER_LEVEL * lvl) (8/5)

-- `Math.max(900, PIPE_INTERVAL_MS - INTERVAL_REDUCTION_MS_PER_LEVEL * level)` (line 318)
def spawnIntervalMs (lvl : ℕ) : ℚ :=
  max 900 (PIPE_INTERVAL_MS - INTERVAL_REDUCTION_MS_PER_LEVEL * lvl)

-- `Math.max(1 - GAP_REDUCTION_PER_LEVEL * level, 0.65)` (lines 290, 457)
def gapMul (lvl : ℕ) : ℚ := max (1 - GAP_REDUCTION_PER_LEVEL * lvl) (13/20)

/-! Obstacles (type `Pipe`, lines 21-27) -/

structure Pipe where
  x : ℚ
  gapY : ℚ
  passed : Bool
  hasTrigger : Bool
  isFinishLine : Bool
deriving DecidableEq

/-! Obstacle generator (`spawnPipe`, lines 276-305) -/

structure SpawnState where
  pipeSpawnCount : ℕ
  pipes : List Pipe
deriving DecidableEq

-- `u` stands for the `Math.random()` draw in `[0, 1)`; `score` is the
-- score at spawn time (read through `scoreRef`).
def spawnPipe (startScore : ℕ) (W H u : ℚ) (score : ℕ) (s : SpawnState) : SpawnState :=
  let nextAbsolutePipeNumber := startScore + s.pipeSpawnCount + 1
  if 90 < nextAbsolutePipeNumber then s
  else
    let wScale := W / BASE_WIDTH
    let hScale := H / BASE_HEIGHT
    let lvl := min MAX_LEVEL (score / 10)
    let gMul := max (1 - GAP_REDUCTION_PER_LEVEL * lvl) (13/20)
    let gap := max (60 * hScale) (BASE_GAP * hScale * gMul)
    let margin := 80 * hScale
    let range := max 1 (H - gap - margin * 2)
    let gapY : ℚ := ((⌊u * range⌋ : ℤ) : ℚ) + margin
    let cnt := s.pipeSpawnCount + 1
    let absolutePipeNumber := startScore + cnt
    { pipeSpawnCount := cnt
      pipes := s.pipes ++
        [{ x := W + 20 * wScale, gapY := gapY, passed := false
           hasTrigger := absolutePipeNumber % 10 == 0
           isFinishLine := absolutePipeNumber == 90 }] }

-- Iterated spawning; each element of `inputs` is the pair
-- (random draw, score at that spawn attempt).
def spawnIter (startScore : ℕ) (W H : ℚ) (inputs : List (ℚ × ℕ)) (s : SpawnState) :
    SpawnState :=
  match inputs with
  | [] => s
  | (u, sc) :: rest => spawnIter startScore W H rest (spawnPipe startScore W H u sc s)

/-! Pass detection and scoring (loop, lines 473-547) -/

-- One iteration of the `pipes.current.forEach` body restricted to the
-- pass/scoring branch: `if (!p.passed && p.x + PIPE_WIDTH < birdPosX)`
-- marks the pipe passed and, unless it is the finish line, increments
-- the score by exactly 1.
def passStep (birdPosX pw : ℚ) (acc : List Pipe × ℕ) (p : Pipe) : List Pipe × ℕ :=
  if !p.passed && decide (p.x + pw < birdPosX) then
    (acc.1 ++ [{ p with passed := true }],
     if p.isFinishLine then acc.2 else acc.2 + 1)
  else
    (acc.1 ++ [p], acc.2)

def processPasses (birdPosX pw : ℚ) (ps : List Pipe) (score : ℕ) : List Pipe × ℕ :=
  ps.foldl (passStep birdPosX pw) ([], score)

/-! Collision detection (loop, lines 548-568 and 572-581) -/

-- `inPipeX && topBottomY` (lines 550-552)
def collides (birdPosX r pw gap birdY : ℚ) (p : Pipe) : Bool :=
  (decide (birdPosX + r > p.x) && decide (birdPosX - r < p.x + pw)) &&
  (decide (birdY - r < p.gapY) || decide (birdY + r > p.gapY + gap))

-- The `forEach` collision branch: sets gameOver when any pipe collides,
-- skipped entirely during the victory flyout.
def collisionFrame (victoryFlyout : Bool) (birdPosX r pw gap birdY : ℚ)
    (ps : List Pipe) (gameOver : Bool) : Bool :=
  ps.foldl
    (fun g p =>
      if !victoryFlyout && collides birdPosX r pw gap birdY p then true else g)
    gameOver

-- Ceiling/floor collision (lines 572-581):
-- `birdY - r <= 0 || birdY + r >= H` sets gameOver, skipped during flyout.
def boundaryFatal (victoryFlyout : Bool) (H r birdY : ℚ) (gameOver : Bool) : Bool :=
  if !victoryFlyout && (decide (birdY - r ≤ 0) || decide (birdY + r ≥ H)) then true
  else gameOver

/-! Session state and restart (`reset`, lines 108-155) -/

structure GameState where
  score : ℕ
  gameOver : Bool
  gameWon : Bool
  running : Bool
  birdY : ℚ
  birdV : ℚ
  birdX : ℚ
  pipes : List Pipe
  lastSpawnAt : ℚ
  pipeSpawnCount : ℕ
  victoryFlyout : Bool
  victoryFlyoutStart : ℚ
  victoryComplete : Bool
  currentBgIndex : ℕ
  parallaxOffset : ℚ
deriving DecidableEq

-- `reset` reads only the configured starting score and the current
-- canvas height `H`; every mutable game cell is freshly reset.
def reset (startScore : ℕ) (H : ℚ) (_s : GameState) : GameState :=
  { score := startScore
    gameOver := false
    gameWon := false
    running := false
    birdY := H / 2
    birdV := 0
    birdX := 0
    pipes := []
    lastSpawnAt := 0
    pipeSpawnCount := 0
    victoryFlyout := false
    victoryFlyoutStart := 0
    victoryComplete := false
    currentBgIndex := startScore / 10
    parallaxOffset := 0 }

/-! Physics integration (loop, lines 307-332) and flap (lines 213-215) -/

-- `const dt = Math.min(32, now - lastTime)` (line 308)
def clampDt (raw : ℚ) : ℚ := min 32 raw

-- `GRAVITY = BASE_GRAVITY * hScale * gravityMul` (lines 326-330)
def gravityAccel (H : ℚ) (score : ℕ) : ℚ :=
  BASE_GRAVITY * (H / BASE_HEIGHT) * gravityMul (level score)

-- `birdV += GRAVITY * (dt / 16.67); birdY += birdV * (dt / 16.67)`
-- (lines 331-332): the position update uses the already-updated velocity.
def physicsStep (H : ℚ) (score : ℕ) (dt : ℚ) (birdY birdV : ℚ) : ℚ × ℚ :=
  let v := birdV + gravityAccel H score * (dt / (1667/100))
  let y := birdY + v * (dt / (1667/100))
  (y, v)

-- The same update written with the normalization the spec states,
-- `dt_norm = dt / (1000/60)`, for comparison against `physicsStep`.
def physicsStepSpecNorm (H : ℚ) (score : ℕ) (dt : ℚ) (birdY birdV : ℚ) : ℚ × ℚ :=
  let v := birdV + gravityAccel H score * (dt / (1000/60))
  let y := birdY + v * (dt / (1000/60))
  (y, v)

-- `birdV.current = BASE_FLAP * hScale` (lines 214-215): the previous
-- velocity is overwritten, and no difficulty factor is applied.
def flapImpulse (H : ℚ) (_birdV : ℚ) : ℚ := BASE_FLAP * (H / BASE_HEIGHT)

end FlappyBird

namespace ScoresApi

/-! Score persistence API (src/flappybird/app/api/scores/route.ts) -/

-- `String.prototype.trim()` for the ASCII inputs in scope here.
def jsTrim (s : String) : String :=
  String.mk
    (((s.toList.dropWhile Char.isWhitespace).reverse.dropWhile Char.isWhitespace).reverse)

-- `String.prototype.toLowerCase()` for the ASCII inputs in scope here.
def lowerStr (s : String) : String := String.mk (s.toList.map Char.toLower)

-- Character class of the id regexp `[A-Za-z0-9._-]`.
def idChar (c : Char) : Bool := c.isAlpha || c.isDigit || c == '.' || c == '_' || c == '-'

-- The id regexp test (2 to 40 characters of the class above, anchored);
-- the separate falsy-id guard in the
-- source is subsumed by the length lower bound.
def idValid (id : String) : Bool :=
  decide (2 ≤ id.toList.length) && decide (id.toList.length ≤ 40) && id.toList.all idChar

-- New-schema entry as stored in scores.json (route.ts lines 13-20).
structure ScoreEntry where
  id : String
  firstName : String
  lastInitial : String
  score : ℤ
  createdAt : String
  updatedAt : String
deriving DecidableEq

-- A POST body after the JS coercions on lines 86-89: `score` is
-- `some q` when `Number(body.score)` is finite, `none` otherwise; absent
-- string fields coerce to `""`.
structure PostBody where
  id : String
  score : Option ℚ
  firstName : String
  lastInitial : String
deriving DecidableEq

inductive PostOutcome where
  | badRequest
  | profileRequired
  | updated
  | created
deriving DecidableEq

-- The HTTP status code attached to each outcome (lines 93, 96, 113, 118, 131).
def statusOf : PostOutcome → ℕ
  | .badRequest => 400
  | .profileRequired => 409
  | .updated => 200
  | .created => 201

-- `(s) => typeof s.id === "string" && s.id.toLowerCase() === id.toLowerCase()`
def sameId (idLower : String) (e : ScoreEntry) : Bool := lowerStr e.id == idLower

-- Replace the first entry matched by `findIndex`: keep its other fields,
-- set score to the max of existing and new, refresh updatedAt (lines 100-111).
def updateFirst (idLower : String) (newScore : ℤ) (now : String) :
    List ScoreEntry → List ScoreEntry
  | [] => []
  | e :: rest =>
    if sameId idLower e then
      { e with score := max e.score newScore, updatedAt := now } :: rest
    else
      e :: updateFirst idLower newScore now rest

-- `charAt(0).toUpperCase()` (line 124); `"".charAt(0)` is `""`.
def firstCharUpper (s : String) : String :=
  match s.toList with
  | [] => ""
  | c :: _ => String.mk [c.toUpper]

-- `slice(0, 40)` (line 123).
def sliceChars (n : ℕ) (s : String) : String := String.mk (s.toList.take n)

-- POST /scores (route.ts lines 83-135). `now` stands for
-- `new Date().toISOString()`.
def postScores (now : String) (body : PostBody) (store : List ScoreEntry) :
    PostOutcome × List ScoreEntry :=
  let id := jsTrim body.id
  let firstNameRaw := jsTrim body.firstName
  let lastInitialRaw := jsTrim body.lastInitial
  if idValid id = false then (.badRequest, store)
  else
    match body.score with
    | none => (.badRequest, store)
    | some scoreRaw =>
      if scoreRaw < 0 ∨ 1000000 < scoreRaw then (.badRequest, store)
      else if store.any (sameId (lowerStr id)) then
        (.updated, updateFirst (lowerStr id) (Rat.floor scoreRaw) now store)
      else if firstNameRaw = "" ∨ lastInitialRaw = "" then
        (.profileRequired, store)
      else
        (.created, store ++
          [{ id := id
             firstName := sliceChars 40 firstNameRaw
             lastInitial := firstCharUpper lastInitialRaw
             score := Rat.floor scoreRaw
             createdAt := now
             updatedAt := now }])

-- GET /scores?id=X (route.ts lines 60-63): the exists flag and the entry.
def getById (idParam : String) (store : List ScoreEntry) : Bool × Option ScoreEntry :=
  match store.find? (sameId (lowerStr idParam)) with
  | some e => (true, some e)
  | none => (false, none)

-- The display name used by the comparator: firstName, a space, lastInitial
-- (lines 71-72).
def displayName (e : ScoreEntry) : String := e.firstName ++ " " ++ e.lastInitial

-- The total preorder realised by the comparator on lines 68-74:
-- `a` sorts no later than `b` iff `a` has the larger score, or scores tie
-- and the display name of `a` is lexicographically no larger.
def entryLe (a b : ScoreEntry) : Prop :=
  b.score < a.score ∨ (a.score = b.score ∧ (displayName a).toList ≤ (displayName b).toList)

instance : DecidableRel entryLe := fun a b => by
  unfold entryLe; infer_instance

instance : IsTrans ScoreEntry entryLe where
  trans a b c hab hbc := by
    rcases hab with h1 | ⟨e1, n1⟩
    · rcases hbc with h2 | ⟨e2, _⟩
      · exact Or.inl (h2.trans h1)
      · exact Or.inl (e2 ▸ h1)
    · rcases hbc with h2 | ⟨e2, n2⟩
      · exact Or.inl (by rw [e1]; exact h2)
      · exact Or.inr ⟨e1.trans e2, n1.trans n2⟩

instance : IsTotal ScoreEntry entryLe where
  total a b := by
    rcases lt_trichotomy a.score b.score with h | h | h
    · exact Or.inr (Or.inl h)
    · exact (le_total (displayName a).toList (displayName b).toList).imp
        (fun hn => Or.inr ⟨h, hn⟩) (fun hn => Or.inr ⟨h.symm, hn⟩)
    · exact Or.inl (Or.inl h)

-- `Math.max(1, Math.min(10000, Number(limitParam)))` (line 77); the
-- limit parameter is modelled as an integer.
def clampLimit (n : ℤ) : ℤ := max 1 (min 10000 n)

-- GET /scores?limit=N (route.ts lines 65-79): sort with the comparator,
-- then `slice(0, limit)`.
def getLeaderboard (limitParam : ℤ) (store : List ScoreEntry) : List ScoreEntry :=
  (List.insertionSort entryLe store).take (clampLimit limitParam).toNat

end ScoresApi

/-! Concrete sample data used by counterexamples and witnesses -/

-- The rational 11/2 = 5.5 written as an explicit numerator/denominator
-- pair (kernel-reducible, unlike `11 / 2` on `ℚ`).
def q5h : ℚ := ⟨11, 2, by decide, by decide⟩

-- The rational 85/2 = 42.5.
def q42h : ℚ := ⟨85, 2, by decide, by decide⟩

def demoInputs : List (ℚ × ℕ) := List.replicate 5 ((⟨1, 2, by decide, by decide⟩ : ℚ), 85)

def demoOver : FlappyBird.GameState :=
  { score := 17, gameOver := true, gameWon := false, running := false
    birdY := 10, birdV := 3, birdX := 0, pipes := [], lastSpawnAt := 0
    pipeSpawnCount := 17, victoryFlyout := false, victoryFlyoutStart := 0
    victoryComplete := false, currentBgIndex := 1, parallaxOffset := 0 }

def cexEntry : ScoresApi.ScoreEntry :=
  { id := "abc", firstName := "A", lastInitial := "B", score := 5
    createdAt := "t0", updatedAt := "t0" }

def cexBody : ScoresApi.PostBody :=
  { id := "abc", score := some q5h, firstName := "", lastInitial := "" }

def wEntry : ScoresApi.ScoreEntry :=
  { id := "ABC123", firstName := "A", lastInitial := "B", score := 7
    createdAt := "t0", updatedAt := "t0" }

def wBody : ScoresApi.PostBody :=
  { id := "abc123", score := some 42, firstName := "", lastInitial := "" }

def rtBodyA : ScoresApi.PostBody :=
  { id := "abc123", score := some 42, firstName := "A", lastInitial := "B" }

def rtBodyB : ScoresApi.PostBody :=
  { id := "abc123", score := some 10, firstName := "", lastInitial := "" }

def rtBodyC : ScoresApi.PostBody :=
  { id := "abc123", score := some 99, firstName := "", lastInitial := "" }

def rtS1 : List ScoresApi.ScoreEntry := (ScoresApi.postScores "t1" rtBodyA []).2

def rtS2 : List ScoresApi.ScoreEntry := (ScoresApi.postScores "t2" rtBodyB rtS1).2

def w10Body : ScoresApi.PostBody :=
  { id := "user_1", score := some q42h, firstName := "  Jo  ", lastInitial := " b " }

def demoStore : List ScoresApi.ScoreEntry :=
  [ { id := "aa", firstName := "Zed", lastInitial := "Q", score := 3
      createdAt := "t0", updatedAt := "t0" },
    { id := "bb", firstName := "Ann", lastInitial := "K", score := 9
      createdAt := "t0", updatedAt := "t0" },
    { id := "cc", firstName := "Bob", lastInitial := "L", score := 9
      createdAt := "t0", updatedAt := "t0" } ]

/-! ## Theorems -/

/-- Helper for claim C1: the score produced by folding the pass handler over
the pipe list counts exactly the newly passed non-finish pipes, whatever the
accumulated pipe list is. -/
theorem passStep_fold_score (bx pw : ℚ) (ps : List FlappyBird.Pipe) :
    ∀ (l : List FlappyBird.Pipe) (sc : ℕ),
      (ps.foldl (FlappyBird.passStep bx pw) (l, sc)).2 =
        sc + (ps.filter fun p =>
          !p.passed && decide (p.x + pw < bx) && !p.isFinishLine).length := by
  induction ps with
  | nil => intro l sc; simp
  | cons p rest ih =>
    intro l sc
    simp only [List.foldl_cons, List.filter_cons]
    cases hc : (!p.passed && decide (p.x + pw < bx)) with
    | false =>
      simp [FlappyBird.passStep, hc, ih]
    | true =>
      cases hf : p.isFinishLine with
      | false => simp [FlappyBird.passStep, hc, hf, ih]; omega
      | true => simp [FlappyBird.passStep, hc, hf, ih]

/-- Claim C1 counterexample: passing an unpassed milestone obstacle
(`hasTrigger = true`, not the finish line) does change the score — the pass
handler increments it from 5 to 6, contradicting the claim that milestone
passes leave the score unchanged. -/
theorem milestone_pass_scores_cex :
    (FlappyBird.processPasses 120 70
      [{ x := 0, gapY := 200, passed := false, hasTrigger := true, isFinishLine := false }]
      5).2 = 6 ∧ (6 : ℕ) ≠ 5 := by
  constructor
  · norm_num [FlappyBird.processPasses, FlappyBird.passStep]
  · decide

/-- Claim C1 (amended): a frame's pass handling increments the score by
exactly 1 for every newly passed obstacle that is not the finish line —
milestone obstacles included — and leaves it unchanged for the finish
obstacle; hence after N such non-finish passes the score equals the score
before plus N. -/
theorem pass_scoring_counts (bx pw : ℚ) (ps : List FlappyBird.Pipe) (sc : ℕ) :
    (FlappyBird.processPasses bx pw ps sc).2 =
      sc + (ps.filter fun p =>
        !p.passed && decide (p.x + pw < bx) && !p.isFinishLine).length :=
  passStep_fold_score bx pw ps [] sc

/-- Claim C2: the difficulty level is `min maxLevel (score / 10)` and is
monotone in the score; the gravity and speed multipliers are non-decreasing
in the level, the spawn interval and gap multiplier are non-increasing, all
four respect their caps/floors at every level, and at the maximum level they
evaluate to the correctly clamped values. -/
theorem difficulty_scaler_monotone :
    (∀ score : ℕ, FlappyBird.level score = min FlappyBird.MAX_LEVEL (score / 10)) ∧
    (∀ s1 s2 : ℕ, s1 < s2 → FlappyBird.level s1 ≤ FlappyBird.level s2) ∧
    (∀ l1 l2 : ℕ, l1 ≤ l2 → FlappyBird.gravityMul l1 ≤ FlappyBird.gravityMul l2) ∧
    (∀ l1 l2 : ℕ, l1 ≤ l2 → FlappyBird.speedMul l1 ≤ FlappyBird.speedMul l2) ∧
    (∀ l1 l2 : ℕ, l1 ≤ l2 → FlappyBird.spawnIntervalMs l2 ≤ FlappyBird.spawnIntervalMs l1) ∧
    (∀ l1 l2 : ℕ, l1 ≤ l2 → FlappyBird.gapMul l2 ≤ FlappyBird.gapMul l1) ∧
    (∀ l : ℕ, FlappyBird.gravityMul l ≤ 7/5 ∧ FlappyBird.speedMul l ≤ 8/5 ∧
      900 ≤ FlappyBird.spawnIntervalMs l ∧ 13/20 ≤ FlappyBird.gapMul l) ∧
    (FlappyBird.gravityMul FlappyBird.MAX_LEVEL = 33/25 ∧
     FlappyBird.speedMul FlappyBird.MAX_LEVEL = 7/5 ∧
     FlappyBird.spawnIntervalMs FlappyBird.MAX_LEVEL = 1000 ∧
     FlappyBird.gapMul FlappyBird.MAX_LEVEL = 21/25) := by
  refine ⟨fun score => rfl, ?_, ?_, ?_, ?_, ?_, ?_, ?_⟩
  · intro s1 s2 h
    exact min_le_min le_rfl (Nat.div_le_div_right h.le)
  · intro l1 l2 h
    have hc : (l1 : ℚ) ≤ l2 := by exact_mod_cast h
    unfold FlappyBird.gravityMul FlappyBird.GRAVITY_PER_LEVEL
    gcongr
  · intro l1 l2 h
    have hc : (l1 : ℚ) ≤ l2 := by exact_mod_cast h
    unfold FlappyBird.speedMul FlappyBird.SPEED_PER_LEVEL
    gcongr
  · intro l1 l2 h
    have hc : (l1 : ℚ) ≤ l2 := by exact_mod_cast h
    unfold FlappyBird.spawnIntervalMs FlappyBird.INTERVAL_REDUCTION_MS_PER_LEVEL
    gcongr
  · intro l1 l2 h
    have hc : (l1 : ℚ) ≤ l2 := by exact_mod_cast h
    unfold FlappyBird.gapMul FlappyBird.GAP_REDUCTION_PER_LEVEL
    gcongr
  · intro l
    exact ⟨min_le_right _ _, min_le_right _ _, le_max_left _ _, le_max_right _ _⟩
  · refine ⟨?_, ?_, ?_, ?_⟩ <;>
      norm_num [FlappyBird.gravityMul, FlappyBird.speedMul, FlappyBird.spawnIntervalMs,
        FlappyBird.gapMul, FlappyBird.MAX_LEVEL, FlappyBird.GRAVITY_PER_LEVEL,
        FlappyBird.SPEED_PER_LEVEL, FlappyBird.GAP_REDUCTION_PER_LEVEL,
        FlappyBird.INTERVAL_REDUCTION_MS_PER_LEVEL, FlappyBird.PIPE_INTERVAL_MS, min_def, max_def]

/-- Witness for claim C2 at the concrete scores 15 and 27. -/
theorem difficulty_scaler_monotone_w :
    15 < 27 ∧ FlappyBird.level 15 ≤ FlappyBird.level 27 :=
  ⟨by decide, difficulty_scaler_monotone.2.1 15 27 (by decide)⟩

/-- Helper for claim C3: once the next absolute pipe number would exceed 90,
`spawnPipe` leaves the state untouched. -/
theorem spawnPipe_stop (S : ℕ) (W H u : ℚ) (sc : ℕ) (s : FlappyBird.SpawnState)
    (h : 90 < S + s.pipeSpawnCount + 1) :
    FlappyBird.spawnPipe S W H u sc s = s := by
  simp [FlappyBird.spawnPipe, h]

/-- Helper for claim C3: a successful spawn appends one pipe whose milestone
and finish flags are computed from the absolute pipe number. -/
theorem spawnPipe_go (S : ℕ) (W H u : ℚ) (sc : ℕ) (s : FlappyBird.SpawnState)
    (h : S + s.pipeSpawnCount + 1 ≤ 90) :
    ∃ q : FlappyBird.Pipe,
      FlappyBird.spawnPipe S W H u sc s =
        ⟨s.pipeSpawnCount + 1, s.pipes ++ [q]⟩ ∧
      q.hasTrigger = ((S + s.pipeSpawnCount + 1) % 10 == 0) ∧
      q.isFinishLine = ((S + s.pipeSpawnCount + 1) == 90) ∧
      q.passed = false := by
  simp only [FlappyBird.spawnPipe]
  rw [if_neg (Nat.not_lt.mpr h)]
  exact ⟨_, rfl, rfl, rfl, rfl⟩

/-- Helper for claim C3: iterated spawning never rewrites a pipe that is
already in the list. -/
theorem spawnIter_stable (S : ℕ) (W H : ℚ) :
    ∀ (inputs : List (ℚ × ℕ)) (s : FlappyBird.SpawnState) (i : ℕ),
      i < s.pipes.length →
      (FlappyBird.spawnIter S W H inputs s).pipes.get? i = s.pipes.get? i := by
  intro inputs
  induction inputs with
  | nil => intro s i hi; rfl
  | cons a rest ih =>
    intro s i hi
    obtain ⟨u, sc⟩ := a
    show (FlappyBird.spawnIter S W H rest (FlappyBird.spawnPipe S W H u sc s)).pipes.get? i
      = s.pipes.get? i
    rcases Nat.lt_or_ge 90 (S + s.pipeSpawnCount + 1) with hgt | hle
    · rw [spawnPipe_stop S W H u sc s hgt]
      exact ih s i hi
    · obtain ⟨q, hstate, -, -, -⟩ := spawnPipe_go S W H u sc s hle
      rw [hstate]
      have hi2 : i < (s.pipes ++ [q]).length := by
        simp only [List.length_append, List.length_cons, List.length_nil]
        omega
      rw [ih ⟨s.pipeSpawnCount + 1, s.pipes ++ [q]⟩ i hi2]
      exact List.get?_append hi

/-- Helper for claim C3: starting from pipe-count `c` with matching pipe-list
length, the k-th subsequently spawned pipe sits at index `c + k - 1` and
carries the flags of absolute pipe number `S + c + k`. -/
theorem spawnIter_get (S : ℕ) (W H : ℚ) :
    ∀ (inputs : List (ℚ × ℕ)) (c : ℕ) (ps : List FlappyBird.Pipe),
      ps.length = c →
      ∀ k : ℕ, 1 ≤ k → k ≤ inputs.length → S + c + k ≤ 90 →
      ∃ p : FlappyBird.Pipe,
        (FlappyBird.spawnIter S W H inputs ⟨c, ps⟩).pipes.get? (c + k - 1) = some p ∧
        p.hasTrigger = ((S + c + k) % 10 == 0) ∧
        p.isFinishLine = ((S + c + k) == 90) := by
  intro inputs
  induction inputs with
  | nil =>
    intro c ps hlen k hk hklen h90
    simp only [List.length_nil] at hklen
    omega
  | cons a rest ih =>
    intro c ps hlen k hk hklen h90
    obtain ⟨u, sc⟩ := a
    have hle : S + (⟨c, ps⟩ : FlappyBird.SpawnState).pipeSpawnCount + 1 ≤ 90 := by
      show S + c + 1 ≤ 90
      omega
    obtain ⟨q, hstate, hq1, hq2, -⟩ := spawnPipe_go S W H u sc ⟨c, ps⟩ hle
    rw [show (⟨c, ps⟩ : FlappyBird.SpawnState).pipeSpawnCount = c from rfl]
      at hstate hq1 hq2
    rw [show (⟨c, ps⟩ : FlappyBird.SpawnState).pipes = ps from rfl] at hstate
    show ∃ p, (FlappyBird.spawnIter S W H rest
        (FlappyBird.spawnPipe S W H u sc ⟨c, ps⟩)).pipes.get? (c + k - 1) = some p ∧ _
    rw [hstate]
    rcases eq_or_lt_of_le hk with h1 | h2
    · -- k = 1: the pipe just appended is the one looked up
      subst h1
      refine ⟨q, ?_, hq1, hq2⟩
      have hidx : c + 1 - 1 = c := by omega
      rw [hidx]
      have hlt : c < ((⟨c + 1, ps ++ [q]⟩ : FlappyBird.SpawnState)).pipes.length := by
        simp only [List.length_append, List.length_cons, List.length_nil, hlen]
        omega
      rw [spawnIter_stable S W H rest ⟨c + 1, ps ++ [q]⟩ c hlt]
      show (ps ++ [q]).get? c = some q
      rw [← hlen]
      exact List.get?_concat_length ps q
    · -- k ≥ 2: recurse with the extended list
      have hlen2 : (ps ++ [q]).length = c + 1 := by
        simp only [List.length_append, List.length_cons, List.length_nil, hlen]
      have hrest : k - 1 ≤ rest.length := by
        simp only [List.length_cons] at hklen
        omega
      have h90b : S + (c + 1) + (k - 1) ≤ 90 := by omega
      obtain ⟨p, hp, hp1, hp2⟩ :=
        ih (c + 1) (ps ++ [q]) hlen2 (k - 1) (by omega) hrest h90b
      have habs : S + (c + 1) + (k - 1) = S + c + k := by omega
      have hidx : c + 1 + (k - 1) - 1 = c + k - 1 := by omega
      rw [habs] at hp1 hp2
      rw [hidx] at hp
      exact ⟨p, hp, hp1, hp2⟩

/-- Claim C3: starting from score `S`, the k-th spawned obstacle has absolute
spawn index `S + k`, is flagged a milestone exactly when `(S + k) % 10 = 0`
and flagged the finish obstacle exactly when `S + k = 90`; and no obstacle is
spawned once the next absolute index would exceed 90. -/
theorem spawn_index_flags (S : ℕ) (W H : ℚ) (inputs : List (ℚ × ℕ)) (k : ℕ)
    (hk : 1 ≤ k) (hlen : k ≤ inputs.length) (h90 : S + k ≤ 90) :
    (∃ p : FlappyBird.Pipe,
        (FlappyBird.spawnIter S W H inputs ⟨0, []⟩).pipes.get? (k - 1) = some p ∧
        p.hasTrigger = ((S + k) % 10 == 0) ∧
        p.isFinishLine = ((S + k) == 90)) ∧
    (∀ (u : ℚ) (sc : ℕ) (s : FlappyBird.SpawnState),
        90 < S + s.pipeSpawnCount + 1 →
        FlappyBird.spawnPipe S W H u sc s = s) := by
  constructor
  · obtain ⟨p, hp, hp1, hp2⟩ :=
      spawnIter_get S W H inputs 0 [] rfl k hk hlen (by omega)
    have h0 : 0 + k - 1 = k - 1 := by omega
    have h0b : S + 0 + k = S + k := by omega
    rw [h0] at hp
    rw [h0b] at hp1 hp2
    exact ⟨p, hp, hp1, hp2⟩
  · intro u sc s h
    exact spawnPipe_stop S W H u sc s h

/-- Witness for claim C3: starting at score 85, the 5th spawned obstacle
(absolute index 90) is the finish obstacle, as in the spec's own example. -/
theorem spawn_index_flags_w :
    (∃ p : FlappyBird.Pipe,
        (FlappyBird.spawnIter 85 480 640 demoInputs ⟨0, []⟩).pipes.get? (5 - 1) = some p ∧
        p.hasTrigger = ((85 + 5) % 10 == 0) ∧
        p.isFinishLine = ((85 + 5) == 90)) ∧
    (∀ (u : ℚ) (sc : ℕ) (s : FlappyBird.SpawnState),
        90 < 85 + s.pipeSpawnCount + 1 →
        FlappyBird.spawnPipe 85 480 640 u sc s = s) :=
  spawn_index_flags 85 480 640 demoInputs 5 (by decide) (by decide) (by decide)

/-- Helper for claim C4: once the game-over flag is set, the per-pipe
collision fold keeps it set. -/
theorem collisionFrame_true (bx r pw gap yB : ℚ) (ps : List FlappyBird.Pipe) :
    FlappyBird.collisionFrame false bx r pw gap yB ps true = true := by
  induction ps with
  | nil => rfl
  | cons p rest ih =>
    show FlappyBird.collisionFrame false bx r pw gap yB rest
      (if !false && FlappyBird.collides bx r pw gap yB p then true else true) = true
    cases FlappyBird.collides bx r pw gap yB p <;> simpa using ih

/-- Helper for claim C4: if some pipe in the list collides with the bird,
the fold sets the game-over flag. -/
theorem collisionFrame_mem (bx r pw gap yB : ℚ) (ps : List FlappyBird.Pipe)
    (go : Bool) (p : FlappyBird.Pipe) (hmem : p ∈ ps)
    (hcol : FlappyBird.collides bx r pw gap yB p = true) :
    FlappyBird.collisionFrame false bx r pw gap yB ps go = true := by
  induction ps generalizing go with
  | nil => cases hmem
  | cons q rest ih =>
    rcases List.mem_cons.mp hmem with h | h
    · subst h
      show FlappyBird.collisionFrame false bx r pw gap yB rest
        (if !false && FlappyBird.collides bx r pw gap yB p then true else go) = true
      rw [hcol]
      simpa using collisionFrame_true bx r pw gap yB rest
    · show FlappyBird.collisionFrame false bx r pw gap yB rest
        (if !false && FlappyBird.collides bx r pw gap yB q then true else go) = true
      cases hq : FlappyBird.collides bx r pw gap yB q
      · simpa using ih go h
      · simpa using collisionFrame_true bx r pw gap yB rest

/-- Helper for claim C4: a bird fully inside the gap band does not collide
with that pipe. -/
theorem collides_in_band (bx r pw gap yB : ℚ) (p : FlappyBird.Pipe)
    (h1 : p.gapY ≤ yB - r) (h2 : yB + r ≤ p.gapY + gap) :
    FlappyBird.collides bx r pw gap yB p = false := by
  simp only [FlappyBird.collides, Bool.and_eq_false_iff]
  right
  simp [not_lt.mpr h1, not_lt.mpr h2]

/-- Claim C4: on a running, non-flyout frame, a bird whose bounding circle
horizontally overlaps a pipe while its vertical extent leaves the gap band
collides and the frame sets game over; a bird fully inside the gap band
never collides with that pipe, regardless of horizontal overlap; and contact
with the canvas top or bottom edge is terminal. -/
theorem collision_gap_band (bx r pw gap yB H : ℚ) (go : Bool)
    (ps : List FlappyBird.Pipe) (p : FlappyBird.Pipe) :
    (p ∈ ps → FlappyBird.collides bx r pw gap yB p = true →
      FlappyBird.collisionFrame false bx r pw gap yB ps go = true) ∧
    (bx + r > p.x → bx - r < p.x + pw →
      (yB - r < p.gapY ∨ yB + r > p.gapY + gap) →
      FlappyBird.collides bx r pw gap yB p = true) ∧
    (p.gapY ≤ yB - r → yB + r ≤ p.gapY + gap →
      FlappyBird.collides bx r pw gap yB p = false) ∧
    ((∀ q ∈ ps, q.gapY ≤ yB - r ∧ yB + r ≤ q.gapY + gap) →
      FlappyBird.collisionFrame false bx r pw gap yB ps go = go) ∧
    ((yB - r ≤ 0 ∨ yB + r ≥ H) →
      FlappyBird.boundaryFatal false H r yB go = true) := by
  refine ⟨fun hmem hcol => collisionFrame_mem bx r pw gap yB ps go p hmem hcol,
    ?_, collides_in_band bx r pw gap yB p, ?_, ?_⟩
  · intro hx1 hx2 hy
    simp only [FlappyBird.collides, Bool.and_eq_true, Bool.or_eq_true, decide_eq_true_eq]
    exact ⟨⟨hx1, hx2⟩, hy.imp id id⟩
  · intro hband
    induction ps generalizing go with
    | nil => rfl
    | cons q rest ih =>
      have hq : FlappyBird.collides bx r pw gap yB q = false :=
        collides_in_band bx r pw gap yB q (hband q (List.mem_cons_self q rest)).1
          (hband q (List.mem_cons_self q rest)).2
      show FlappyBird.collisionFrame false bx r pw gap yB rest
        (if !false && FlappyBird.collides bx r pw gap yB q then true else go) = go
      rw [hq]
      simpa using ih go (fun q' hq' => hband q' (List.mem_cons_of_mem q hq'))
  · intro hy
    have hcond : (decide (yB - r ≤ 0) || decide (yB + r ≥ H)) = true := by
      rcases hy with h | h <;> simp [h]
    simp only [FlappyBird.boundaryFatal, Bool.not_false, Bool.true_and, hcond]
    rfl

/-- Witness for claim C4: a concrete bird placed fully inside the gap band of
a concrete pipe does not collide with it. -/
theorem collision_gap_band_w :
    ((100 : ℚ) ≤ 300 - 12 ∧ (300 : ℚ) + 12 ≤ 100 + 250) ∧
    FlappyBird.collides 120 12 70 250 300
      { x := 100, gapY := 100, passed := false, hasTrigger := false
        isFinishLine := false } = false :=
  ⟨⟨by norm_num, by norm_num⟩,
    (collision_gap_band 120 12 70 250 300 640 false []
      { x := 100, gapY := 100, passed := false, hasTrigger := false
        isFinishLine := false }).2.2.1 (by norm_num) (by norm_num)⟩

/-- Claim C5: restarting after game over resets the score to the configured
starting score, clears the obstacle list, recentres the bird at half the
canvas height with zero velocity, returns the session to the not-started
state, and is idempotent — for a fixed starting score and canvas height all
restarts produce one and the same initial state. -/
theorem reset_idempotent (S : ℕ) (H : ℚ) (s : FlappyBird.GameState)
    (_hgo : s.gameOver = true) :
    (FlappyBird.reset S H s).score = S ∧
    (FlappyBird.reset S H s).pipes = [] ∧
    (FlappyBird.reset S H s).birdY = H / 2 ∧
    (FlappyBird.reset S H s).birdV = 0 ∧
    (FlappyBird.reset S H s).running = false ∧
    (FlappyBird.reset S H s).gameOver = false ∧
    (FlappyBird.reset S H s).gameWon = false ∧
    (FlappyBird.reset S H s).victoryFlyout = false ∧
    (FlappyBird.reset S H s).victoryComplete = false ∧
    FlappyBird.reset S H (FlappyBird.reset S H s) = FlappyBird.reset S H s ∧
    (∀ t : FlappyBird.GameState, FlappyBird.reset S H t = FlappyBird.reset S H s) :=
  ⟨rfl, rfl, rfl, rfl, rfl, rfl, rfl, rfl, rfl, rfl, fun _ => rfl⟩

/-- Witness for claim C5 on a concrete game-over state. -/
theorem reset_idempotent_w :
    demoOver.gameOver = true ∧
    (FlappyBird.reset 0 640 demoOver).score = 0 ∧
    FlappyBird.reset 0 640 (FlappyBird.reset 0 640 demoOver) =
      FlappyBird.reset 0 640 demoOver :=
  ⟨rfl, (reset_idempotent 0 640 demoOver rfl).1,
    (reset_idempotent 0 640 demoOver rfl).2.2.2.2.2.2.2.2.2.1⟩

/-- Claim C6 counterexample: with `H = 640`, `score = 0`, `dt = 32` and the
bird at rest, the code's physics step (which divides by the hard-coded
16.67) produces a different state than the same step normalized by
`1000/60` as the claim states, so the claimed `dt_norm = dt / (1000/60)`
does not describe the code. -/
theorem physics_norm_cex :
    FlappyBird.physicsStep 640 0 32 0 0 ≠ FlappyBird.physicsStepSpecNorm 640 0 32 0 0 := by
  intro h
  have h2 := congrArg Prod.snd h
  norm_num [FlappyBird.physicsStep, FlappyBird.physicsStepSpecNorm,
    FlappyBird.gravityAccel, FlappyBird.gravityMul, FlappyBird.level,
    FlappyBird.BASE_GRAVITY, FlappyBird.BASE_HEIGHT, FlappyBird.GRAVITY_PER_LEVEL,
    FlappyBird.MAX_LEVEL, min_def] at h2

/-- Claim C6 (amended): each frame clamps `dt` to at most 32 ms; the physics
step adds `gravity(level) * dt_norm` to the vertical velocity and then adds
`velocity * dt_norm` to the vertical position, with
`dt_norm = dt * (100/1667)` — the code's hard-coded division by 16.67, an
approximation of `1000/60`; a flap overwrites (does not accumulate) the
velocity with `BASE_FLAP` scaled only by the viewport-to-base height ratio,
with no difficulty factor. -/
theorem physics_step_contract :
    (∀ raw : ℚ, FlappyBird.clampDt raw ≤ 32 ∧ (raw ≤ 32 → FlappyBird.clampDt raw = raw)) ∧
    (∀ (H : ℚ) (sc : ℕ) (dt y v : ℚ),
      (FlappyBird.physicsStep H sc dt y v).2 =
        v + FlappyBird.gravityAccel H sc * (dt * (100/1667)) ∧
      (FlappyBird.physicsStep H sc dt y v).1 =
        y + (FlappyBird.physicsStep H sc dt y v).2 * (dt * (100/1667))) ∧
    (∀ (H v1 v2 : ℚ), FlappyBird.flapImpulse H v1 = FlappyBird.flapImpulse H v2) ∧
    (∀ (H v : ℚ),
      FlappyBird.flapImpulse H v = FlappyBird.BASE_FLAP * (H / FlappyBird.BASE_HEIGHT)) := by
  have hnorm : ∀ dt : ℚ, dt / (1667/100) = dt * (100/1667) := by
    intro dt
    rw [div_eq_mul_inv]
    norm_num
  refine ⟨?_, ?_, fun H v1 v2 => rfl, fun H v => rfl⟩
  · intro raw
    exact ⟨min_le_left _ _, fun h => min_eq_right h⟩
  · intro H sc dt y v
    constructor
    · show v + FlappyBird.gravityAccel H sc * (dt / (1667/100)) =
        v + FlappyBird.gravityAccel H sc * (dt * (100/1667))
      rw [hnorm]
    · show y + (v + FlappyBird.gravityAccel H sc * (dt / (1667/100))) * (dt / (1667/100)) =
        y + (FlappyBird.physicsStep H sc dt y v).2 * (dt * (100/1667))
      rw [show (FlappyBird.physicsStep H sc dt y v).2 =
        v + FlappyBird.gravityAccel H sc * (dt / (1667/100)) from rfl, hnorm]

/-- Witness for claim C6 at the concrete frame time 30 ms. -/
theorem physics_step_contract_w :
    (30 : ℚ) ≤ 32 ∧ FlappyBird.clampDt 30 = 30 :=
  ⟨by decide, (physics_step_contract.1 30).2 (by decide)⟩

/-- Claim C7 counterexample: submitting score 5.5 for the existing id
`abc` (stored score 5) returns 200 but stores
`max(5, floor(5.5)) = 5`, not `max(5, 5.5) = 5.5` — the claim's
`max(existing, submitted)` misses the flooring of the submitted score. -/
theorem post_update_rat_max_cex :
    (ScoresApi.postScores "t1" cexBody [cexEntry]).1 = ScoresApi.PostOutcome.updated ∧
    ((ScoresApi.postScores "t1" cexBody [cexEntry]).2.map ScoresApi.ScoreEntry.score) = [5] ∧
    max (5 : ℚ) q5h ≠ 5 := by
  refine ⟨by decide, by decide, ?_⟩
  have : max (5 : ℚ) q5h = q5h := max_eq_right (by decide)
  rw [this]
  decide

/-- Claim C7 (amended): POST /scores responds 400 leaving storage unchanged
when the trimmed id fails the anchored 2-to-40-character id-class test or the score is
not a finite number in [0, 1000000]; for an id matching an existing entry
case-insensitively it responds 200 and the matched entry's score becomes
`max(existing, floor(submitted))`; for a new id it responds 409 with
`requiresProfile` and stores nothing when a profile field is missing, and
creates the entry and responds 201 when both are present. -/
theorem post_scores_contract (now : String) (b : ScoresApi.PostBody)
    (store : List ScoresApi.ScoreEntry) :
    (ScoresApi.idValid (ScoresApi.jsTrim b.id) = false →
      ScoresApi.postScores now b store = (ScoresApi.PostOutcome.badRequest, store)) ∧
    (b.score = none →
      ScoresApi.postScores now b store = (ScoresApi.PostOutcome.badRequest, store)) ∧
    (∀ q : ℚ, b.score = some q → (q < 0 ∨ 1000000 < q) →
      ScoresApi.postScores now b store = (ScoresApi.PostOutcome.badRequest, store)) ∧
    (∀ q : ℚ, b.score = some q → 0 ≤ q → q ≤ 1000000 →
      ScoresApi.idValid (ScoresApi.jsTrim b.id) = true →
      store.any (ScoresApi.sameId (ScoresApi.lowerStr (ScoresApi.jsTrim b.id))) = true →
      ScoresApi.postScores now b store =
        (ScoresApi.PostOutcome.updated,
          ScoresApi.updateFirst (ScoresApi.lowerStr (ScoresApi.jsTrim b.id))
            (Rat.floor q) now store)) ∧
    (∀ q : ℚ, b.score = some q → 0 ≤ q → q ≤ 1000000 →
      ScoresApi.idValid (ScoresApi.jsTrim b.id) = true →
      store.any (ScoresApi.sameId (ScoresApi.lowerStr (ScoresApi.jsTrim b.id))) = false →
      (ScoresApi.jsTrim b.firstName = "" ∨ ScoresApi.jsTrim b.lastInitial = "") →
      ScoresApi.postScores now b store = (ScoresApi.PostOutcome.profileRequired, store)) ∧
    (∀ q : ℚ, b.score = some q → 0 ≤ q → q ≤ 1000000 →
      ScoresApi.idValid (ScoresApi.jsTrim b.id) = true →
      store.any (ScoresApi.sameId (ScoresApi.lowerStr (ScoresApi.jsTrim b.id))) = false →
      ScoresApi.jsTrim b.firstName ≠ "" → ScoresApi.jsTrim b.lastInitial ≠ "" →
      ScoresApi.postScores now b store =
        (ScoresApi.PostOutcome.created, store ++
          [{ id := ScoresApi.jsTrim b.id
             firstName := ScoresApi.sliceChars 40 (ScoresApi.jsTrim b.firstName)
             lastInitial := ScoresApi.firstCharUpper (ScoresApi.jsTrim b.lastInitial)
             score := Rat.floor q
             createdAt := now
             updatedAt := now }])) ∧
    (∀ (idl : String) (ns : ℤ) (nw : String) (e : ScoresApi.ScoreEntry)
        (rest : List ScoresApi.ScoreEntry),
      ScoresApi.sameId idl e = true →
      ScoresApi.updateFirst idl ns nw (e :: rest) =
        { e with score := max e.score ns, updatedAt := nw } :: rest) ∧
    (ScoresApi.statusOf ScoresApi.PostOutcome.badRequest = 400 ∧
     ScoresApi.statusOf ScoresApi.PostOutcome.profileRequired = 409 ∧
     ScoresApi.statusOf ScoresApi.PostOutcome.updated = 200 ∧
     ScoresApi.statusOf ScoresApi.PostOutcome.created = 201) := by
  refine ⟨?_, ?_, ?_, ?_, ?_, ?_, ?_, rfl, rfl, rfl, rfl⟩
  · intro hbad
    simp [ScoresApi.postScores, hbad]
  · intro hnone
    cases hval : ScoresApi.idValid (ScoresApi.jsTrim b.id)
    · simp [ScoresApi.postScores, hval]
    · simp [ScoresApi.postScores, hval, hnone]
  · intro q hq hout
    cases hval : ScoresApi.idValid (ScoresApi.jsTrim b.id)
    · simp [ScoresApi.postScores, hval]
    · simp [ScoresApi.postScores, hval, hq, hout]
  · intro q hq h0 h1 hval hany
    have hnot : ¬ (q < 0 ∨ 1000000 < q) := by
      push_neg
      exact ⟨h0, h1⟩
    simp [ScoresApi.postScores, hval, hq, hnot, hany]
  · intro q hq h0 h1 hval hany hmiss
    have hnot : ¬ (q < 0 ∨ 1000000 < q) := by
      push_neg
      exact ⟨h0, h1⟩
    simp [ScoresApi.postScores, hval, hq, hnot, hany, hmiss]
  · intro q hq h0 h1 hval hany hfn hln
    have hnot : ¬ (q < 0 ∨ 1000000 < q) := by
      push_neg
      exact ⟨h0, h1⟩
    have hmiss : ¬ (ScoresApi.jsTrim b.firstName = "" ∨ ScoresApi.jsTrim b.lastInitial = "") := by
      push_neg
      exact ⟨hfn, hln⟩
    simp [ScoresApi.postScores, hval, hq, hnot, hany, hmiss]
  · intro idl ns nw e rest hsame
    simp [ScoresApi.updateFirst, hsame]

/-- Witness for claim C7: submitting score 42 for the id `abc123`, which
matches the stored id `ABC123` case-insensitively, takes the update branch. -/
theorem post_scores_contract_w :
    ScoresApi.idValid (ScoresApi.jsTrim wBody.id) = true ∧
    ([wEntry].any (ScoresApi.sameId (ScoresApi.lowerStr (ScoresApi.jsTrim wBody.id))) = true) ∧
    ScoresApi.postScores "t9" wBody [wEntry] =
      (ScoresApi.PostOutcome.updated,
        ScoresApi.updateFirst (ScoresApi.lowerStr (ScoresApi.jsTrim wBody.id))
          (Rat.floor 42) "t9" [wEntry]) :=
  ⟨by decide, by decide,
    (post_scores_contract "t9" wBody [wEntry]).2.2.2.1 42 rfl (by decide) (by decide)
      (by decide) (by decide)⟩

/-- Claim C8: submitting id `abc123` with score 42 and profile fields to an
empty store returns 201; a lookup of `abc123` (also when spelled `ABC123`,
matched case-insensitively) then finds the entry with score 42; resubmitting
score 10 returns 200 and leaves the stored score at 42; resubmitting score
99 returns 200 and raises the stored score to 99. -/
theorem score_round_trip :
    (ScoresApi.postScores "t1" rtBodyA []).1 = ScoresApi.PostOutcome.created ∧
    (ScoresApi.getById "abc123" rtS1).1 = true ∧
    ((ScoresApi.getById "abc123" rtS1).2.map ScoresApi.ScoreEntry.score) = some 42 ∧
    ((ScoresApi.getById "ABC123" rtS1).2.map ScoresApi.ScoreEntry.score) = some 42 ∧
    (ScoresApi.postScores "t2" rtBodyB rtS1).1 = ScoresApi.PostOutcome.updated ∧
    (rtS2.map ScoresApi.ScoreEntry.score) = [42] ∧
    (ScoresApi.postScores "t3" rtBodyC rtS2).1 = ScoresApi.PostOutcome.updated ∧
    ((ScoresApi.postScores "t3" rtBodyC rtS2).2.map ScoresApi.ScoreEntry.score) = [99] := by
  decide

/-- Claim C9: for every integer limit parameter, the leaderboard endpoint
returns a list that is sorted by score descending with ties broken by
display-name lexicographic order, consists of stored entries (a
sub-permutation of the store), and has length `min (clamp N) (store size)`
where the clamp keeps N within [1, 10000]; in particular for `N ≥ 1` at
most N entries are returned. -/
theorem leaderboard_sorted (N : ℤ) (store : List ScoresApi.ScoreEntry) :
    List.Sorted ScoresApi.entryLe (ScoresApi.getLeaderboard N store) ∧
    (ScoresApi.getLeaderboard N store).Subperm store ∧
    (ScoresApi.getLeaderboard N store).length =
      min (ScoresApi.clampLimit N).toNat store.length ∧
    (1 ≤ ScoresApi.clampLimit N ∧ ScoresApi.clampLimit N ≤ 10000) ∧
    (1 ≤ N → (ScoresApi.getLeaderboard N store).length ≤ N.toNat) := by
  have hsorted : List.Sorted ScoresApi.entryLe (List.insertionSort ScoresApi.entryLe store) :=
    List.sorted_insertionSort ScoresApi.entryLe store
  have hperm : (List.insertionSort ScoresApi.entryLe store).Perm store :=
    List.perm_insertionSort ScoresApi.entryLe store
  have hsub : (ScoresApi.getLeaderboard N store).Sublist
      (List.insertionSort ScoresApi.entryLe store) :=
    List.take_sublist _ _
  have hlen : (ScoresApi.getLeaderboard N store).length =
      min (ScoresApi.clampLimit N).toNat store.length := by
    show ((List.insertionSort ScoresApi.entryLe store).take
      (ScoresApi.clampLimit N).toNat).length = _
    rw [List.length_take, hperm.length_eq]
  refine ⟨List.Pairwise.sublist hsub hsorted, (hsub.subperm).trans hperm.subperm, hlen,
    ⟨?_, ?_⟩, ?_⟩
  · exact le_max_left _ _
  · exact max_le (by norm_num) ((min_le_left _ _).trans (by norm_num))
  · intro hN
    rw [hlen]
    have hclamp : ScoresApi.clampLimit N ≤ N := by
      show max 1 (min 10000 N) ≤ N
      exact max_le hN (min_le_right _ _)
    exact (min_le_left _ _).trans (Int.toNat_le_toNat hclamp)

/-- Witness for claim C9 with limit 3 on a concrete three-entry store. -/
theorem leaderboard_sorted_w :
    (1 : ℤ) ≤ 3 ∧ (ScoresApi.getLeaderboard 3 demoStore).length ≤ (3 : ℤ).toNat :=
  ⟨by decide, (leaderboard_sorted 3 demoStore).2.2.2.2 (by decide)⟩

/-- Claim C10: accepted POST input is normalized before storing — the stored
score is the floor of the submitted score (both on create and inside the max
on update), the stored first name is the trimmed submission cut to 40
characters, and the stored last initial is exactly the first character of
the trimmed submission, uppercased. -/
theorem post_normalization (now : String) (b : ScoresApi.PostBody)
    (store : List ScoresApi.ScoreEntry) (q : ℚ)
    (hq : b.score = some q) (h0 : 0 ≤ q) (h1 : q ≤ 1000000)
    (hid : ScoresApi.idValid (ScoresApi.jsTrim b.id) = true) :
    (store.any (ScoresApi.sameId (ScoresApi.lowerStr (ScoresApi.jsTrim b.id))) = false →
      ScoresApi.jsTrim b.firstName ≠ "" → ScoresApi.jsTrim b.lastInitial ≠ "" →
      (ScoresApi.postScores now b store).2 = store ++
        [{ id := ScoresApi.jsTrim b.id
           firstName := ScoresApi.sliceChars 40 (ScoresApi.jsTrim b.firstName)
           lastInitial := ScoresApi.firstCharUpper (ScoresApi.jsTrim b.lastInitial)
           score := Rat.floor q
           createdAt := now
           updatedAt := now }]) ∧
    (store.any (ScoresApi.sameId (ScoresApi.lowerStr (ScoresApi.jsTrim b.id))) = true →
      (ScoresApi.postScores now b store).2 =
        ScoresApi.updateFirst (ScoresApi.lowerStr (ScoresApi.jsTrim b.id))
          (Rat.floor q) now store) ∧
    (((Rat.floor q : ℤ) : ℚ) ≤ q ∧ q < ((Rat.floor q : ℤ) : ℚ) + 1) ∧
    (∀ (c : Char) (cs : List Char),
      ScoresApi.firstCharUpper (String.mk (c :: cs)) = String.mk [c.toUpper]) ∧
    (∀ s : String, (ScoresApi.sliceChars 40 s).toList = s.toList.take 40) ∧
    (∀ (idl : String) (ns : ℤ) (nw : String) (e : ScoresApi.ScoreEntry)
        (rest : List ScoresApi.ScoreEntry),
      ScoresApi.sameId idl e = true →
      (ScoresApi.updateFirst idl ns nw (e :: rest)).map ScoresApi.ScoreEntry.score =
        max e.score ns :: rest.map ScoresApi.ScoreEntry.score) := by
  have hnot : ¬ (q < 0 ∨ 1000000 < q) := by
    push_neg
    exact ⟨h0, h1⟩
  have hfloor : (Rat.floor q : ℤ) = ⌊q⌋ := rfl
  refine ⟨?_, ?_, ?_, ?_, ?_, ?_⟩
  · intro hany hfn hln
    have hmiss : ¬ (ScoresApi.jsTrim b.firstName = "" ∨ ScoresApi.jsTrim b.lastInitial = "") := by
      push_neg
      exact ⟨hfn, hln⟩
    simp [ScoresApi.postScores, hid, hq, hnot, hany, hmiss]
  · intro hany
    simp [ScoresApi.postScores, hid, hq, hnot, hany]
  · rw [hfloor]
    exact ⟨Int.floor_le q, Int.lt_floor_add_one q⟩
  · intro c cs
    rfl
  · intro s
    rfl
  · intro idl ns nw e rest hsame
    simp [ScoresApi.updateFirst, hsame]

/-- Witness for claim C10: submitting score 42.5 with padded name fields for
a fresh id stores floor 42, the trimmed 40-character first name and the
uppercased first character of the last initial. -/
theorem post_normalization_w :
    ScoresApi.idValid (ScoresApi.jsTrim w10Body.id) = true ∧
    (ScoresApi.postScores "t5" w10Body []).2 = [] ++
      [{ id := ScoresApi.jsTrim w10Body.id
         firstName := ScoresApi.sliceChars 40 (ScoresApi.jsTrim w10Body.firstName)
         lastInitial := ScoresApi.firstCharUpper (ScoresApi.jsTrim w10Body.lastInitial)
         score := Rat.floor q42h
         createdAt := "t5"
         updatedAt := "t5" }] :=
  ⟨by decide,
    (post_normalization "t5" w10Body [] q42h rfl (by decide) (by decide) (by decide)).1
      (by decide) (by decide) (by decide)⟩

